import Mathlib

/-!
Verification development for the Homebox image optimization script
(optimize_homebox_images.py).  The script walks a data directory,
converts every raster image to WebP in place, backs files up first,
and updates a Postgres attachments table with the new MIME type.

The shallow embedding below models:
  * Python pathlib suffix/stem/name semantics on a structured path type;
  * the filesystem as an association list from paths to byte contents;
  * the attachments table as an association list from path strings to
    MIME type strings;
  * the external effects (PIL decode/encode, shutil.move failures,
    psycopg2 connection/execution failures) as an environment record;
  * the per-file pipeline of main() (skip check, create_backup,
    convert_to_webp, shutil.move swap, update_database_mime_type,
    counter updates) as a state transformer emitting a trace of actions.
-/

set_option autoImplicit false

/-- Python str.lower restricted to the ASCII handling used for file
extensions (Path.suffix.lower()). -/
def lowerStr (s : String) : String := ⟨s.data.map Char.toLower⟩

/-- Index of the last dot in a character list (Python str.rfind of a dot). -/
def lastDotIdx (cs : List Char) : Option Nat :=
  match cs.reverse.findIdx? (fun c => c == '.') with
  | none => none
  | some j => some (cs.length - 1 - j)

/-- Python pathlib suffix of a file name: the substring from the last dot,
provided that dot is neither the first nor the last character. -/
def pySuffix (name : String) : String :=
  match lastDotIdx name.data with
  | none => ""
  | some i => if 0 < i ∧ i + 1 < name.data.length then ⟨name.data.drop i⟩ else ""

/-- Python pathlib stem relative to pySuffix: the name with its suffix cut off. -/
def pyStem (name : String) : String :=
  ⟨name.data.take (name.data.length - (pySuffix name).data.length)⟩

/-- A filesystem path: directory components plus a base name
(Python pathlib Path, restricted to absolute normalized paths). -/
structure FsPath where
  dir : List String
  base : String
deriving DecidableEq, Repr

/-- Python Path.with_suffix: replace the suffix of the base name. -/
def FsPath.withSuffix (p : FsPath) (s : String) : FsPath :=
  ⟨p.dir, pyStem p.base ++ s⟩

/-- File contents as a byte list; st_size is the length. -/
abbrev Bytes := List Nat

/-- The filesystem: an association list from paths to contents. -/
abbrev FS := List (FsPath × Bytes)

/-- Read a file (Python open/stat). -/
def fsGet : FS → FsPath → Option Bytes
  | [], _ => none
  | (q, b) :: rest, p => if q = p then some b else fsGet rest p

/-- Write a file, overwriting an existing one (Python copy2/move target). -/
def fsSet : FS → FsPath → Bytes → FS
  | [], p, b => [(p, b)]
  | (q, c) :: rest, p, b => if q = p then (q, b) :: rest else (q, c) :: fsSet rest p b

/-- Delete a file (the source side of shutil.move). -/
def fsRemove : FS → FsPath → FS
  | [], _ => []
  | (q, c) :: rest, p => if q = p then fsRemove rest p else (q, c) :: fsRemove rest p

/-- SUPPORTED_FORMATS from the script. -/
def SUPPORTED_FORMATS : List String := [".jpg", ".jpeg", ".png", ".gif", ".bmp", ".tiff", ".tif"]

/-- TARGET_MIME from the script. -/
def TARGET_MIME : String := "image/webp"

/-- WEBP_QUALITY default from the script. -/
def WEBP_QUALITY : Nat := 85

/-- The module-level HOMEBOX_DATA_PATH constant, as directory components. -/
def HOMEBOX_DATA_PATH : List String :=
  ["var", "lib", "docker", "volumes", "homebox-postgres-data", "_data"]

/-- The parsed command line arguments of main(). -/
structure Args where
  dryRun : Bool
  backupDir : List String
  quality : Nat
  skipDatabase : Bool
  dataPath : Option (List String)

/-- External collaborators: PIL decoding (Image.open success on given
bytes), PIL conversion outcome (convert_to_webp result bytes, none on a
caught decode/encode exception), shutil.move failure on the swap into a
given original path, psycopg2 connection success, and execution failure
of the UPDATE for a given key. -/
structure Env where
  sniff : Bytes → Bool
  convert : Bytes → Nat → Option Bytes
  swapFails : FsPath → Bool
  dbConnects : Bool
  dbFails : String → Bool

/-- Line 201 of the script: data_path is the --data-path override when
given, else the module constant. -/
def effectiveDataRoot (args : Args) : List String :=
  args.dataPath.getD HOMEBOX_DATA_PATH

/-- Python Path.relative_to on directory components: strip the root, or
fail (ValueError) when the root is not a leading run of components. -/
def stripRoot : List String → List String → Option (List String)
  | [], ds => some ds
  | _ :: _, [] => none
  | r :: rs, d :: ds => if r = d then stripRoot rs ds else none

/-- Line 120 of the script: the database path key, namespace plus the
path relative to a root, with slash separators; none when relative_to
raises ValueError. -/
def dbKeyOf (root : List String) (p : FsPath) : Option String :=
  match stripRoot root p.dir with
  | some rel => some ("data/" ++ String.intercalate "/" (rel ++ [p.base]))
  | none => none

/-- The attachments table restricted to its (path, mime_type) columns. -/
abbrev DB := List (String × String)

/-- cursor.rowcount of the UPDATE: how many rows match the key. -/
def countKey : DB → String → Nat
  | [], _ => 0
  | r :: rest, k => (if r.1 = k then 1 else 0) + countKey rest k

/-- Effect of UPDATE attachments SET mime_type = m WHERE path = k. -/
def setMime : DB → String → String → DB
  | [], _, _ => []
  | r :: rest, k, m => (if r.1 = k then (r.1, m) else r) :: setMime rest k m

/-- Observable actions of one run, in program order. -/
inductive Act where
  | backup (src dst : FsPath)
  | convertOk (src tmp : FsPath)
  | convertFail (src tmp : FsPath)
  | swap (tmp dst : FsPath)
  | restore (bak dst : FsPath)
  | dbExec (key mime : String)
  | dbCommit
  | dbRollback
  | countConverted (p : FsPath)
  | countFailed (p : FsPath)
deriving DecidableEq, Repr

/-- Whether an action is a restore (the backup-to-original move). -/
def Act.isRestore : Act → Bool
  | .restore _ _ => true
  | _ => false

/-- Whether an action issues the UPDATE statement. -/
def Act.isDbExec : Act → Bool
  | .dbExec _ _ => true
  | _ => false

/-- update_database_mime_type (lines 114-136): derive the key with
relative_to against the module constant root, execute the UPDATE, read
rowcount, commit, and return rowcount > 0; any exception (including the
ValueError from relative_to) rolls back and returns False. -/
def update_database_mime_type (env : Env) (root : List String) (db : DB)
    (p : FsPath) (mime : String) : DB × Bool × List Act :=
  match dbKeyOf root p with
  | none => (db, false, [.dbRollback])
  | some key =>
    if env.dbFails key then
      (db, false, [.dbRollback])
    else
      (setMime db key mime, countKey db key > 0, [.dbExec key mime, .dbCommit])

/-- Backup destination: the backup directory joined with the base name
only (line 64 of the script). -/
def backupPathOf (backupDir : List String) (src : FsPath) : FsPath :=
  ⟨backupDir, src.base⟩

/-- create_backup (lines 62-66): copy2 the source into the backup
directory under its base name and return the backup path.  When the
source is unreadable the copy raises; the caller handles that case. -/
def create_backup (fs : FS) (backupDir : List String) (src : FsPath) : FS × FsPath :=
  match fsGet fs src with
  | some b => (fsSet fs (backupPathOf backupDir src) b, backupPathOf backupDir src)
  | none => (fs, backupPathOf backupDir src)

/-- Run statistics kept by main(): converted_count, failed_count,
total_saved.  The script keeps no skipped count. -/
structure Stats where
  converted : Nat
  failed : Nat
  totalSaved : Int
deriving DecidableEq, Repr

/-- The mutable state of the processing loop in main(), plus a ledger of
per-file conversion sizes (the sizes main() logs per converted file) and
the trace of observable actions. -/
structure RunState where
  fs : FS
  db : DB
  conn : Bool
  stats : Stats
  conversions : List (FsPath × Nat × Nat)
  trace : List Act
deriving DecidableEq, Repr

/-- One iteration of the processing loop of main() (lines 240-283):
skip .webp suffixes; back up; convert to a .webp.tmp scratch file; move
the scratch over the original; update the database when a connection is
held and updates were not skipped; bump counters.  A conversion failure
bumps failed_count and moves the backup over the original; an exception
(missing source, copy2 onto itself, or a failing move) is caught by the
per-file handler, which only bumps failed_count. -/
def processFile (env : Env) (args : Args) (st : RunState) (p : FsPath) : RunState :=
  if lowerStr (pySuffix p.base) = ".webp" then
    st
  else
    match fsGet st.fs p with
    | none =>
      { st with stats := { st.stats with failed := st.stats.failed + 1 },
                trace := st.trace ++ [.countFailed p] }
    | some origBytes =>
      if backupPathOf args.backupDir p = p then
        { st with stats := { st.stats with failed := st.stats.failed + 1 },
                  trace := st.trace ++ [.countFailed p] }
      else
        let bak := backupPathOf args.backupDir p
        let fs1 := fsSet st.fs bak origBytes
        let originalSize := origBytes.length
        let tmp := FsPath.withSuffix p ".webp.tmp"
        match env.convert origBytes args.quality with
        | some webpBytes =>
          let fs2 := fsSet fs1 tmp webpBytes
          let newSize := webpBytes.length
          if env.swapFails p then
            { st with fs := fs2,
                      stats := { st.stats with failed := st.stats.failed + 1 },
                      trace := st.trace ++ [.backup p bak, .convertOk p tmp, .countFailed p] }
          else
            let fs3 := fsSet (fsRemove fs2 tmp) p webpBytes
            let upd :=
              if st.conn ∧ ¬ args.skipDatabase then
                update_database_mime_type env HOMEBOX_DATA_PATH st.db p TARGET_MIME
              else
                (st.db, false, [])
            { fs := fs3,
              db := upd.1,
              conn := st.conn,
              stats := { converted := st.stats.converted + 1,
                         failed := st.stats.failed,
                         totalSaved := st.stats.totalSaved + ((originalSize : Int) - (newSize : Int)) },
              conversions := st.conversions ++ [(p, originalSize, newSize)],
              trace := st.trace ++ [.backup p bak, .convertOk p tmp, .swap tmp p]
                       ++ upd.2.2 ++ [.countConverted p] }
        | none =>
          let fs3 := fsSet (fsRemove fs1 bak) p origBytes
          { st with fs := fs3,
                    stats := { st.stats with failed := st.stats.failed + 1 },
                    trace := st.trace ++ [.backup p bak, .convertFail p tmp,
                                          .countFailed p, .restore bak p] }

/-- The whole processing loop of main(). -/
def processFiles (env : Env) (args : Args) (st : RunState) (ps : List FsPath) : RunState :=
  ps.foldl (processFile env args) st

/-- find_image_files (lines 138-158): keep regular files whose lowered
suffix is a supported format, or which have no suffix and open as an
image; the directory listing is supplied by the caller. -/
def find_image_files (env : Env) (files : List (FsPath × Bytes)) : List FsPath :=
  (files.filter (fun fb =>
    decide (lowerStr (pySuffix fb.1.base) ∈ SUPPORTED_FORMATS ∨
            (pySuffix fb.1.base = "" ∧ env.sniff fb.2 = true)))).map (fun fb => fb.1)

/-- The outcome of one invocation of main(): final filesystem, final
database, statistics, conversion ledger, action trace, and the final
summary counts when the run reached the summary (none on the early
returns: no images, dry run, failed database connection). -/
structure RunResult where
  fs : FS
  db : DB
  stats : Stats
  conversions : List (FsPath × Nat × Nat)
  trace : List Act
  summary : Option (Nat × Nat × Int)
deriving DecidableEq, Repr

/-- The initial loop state. -/
def initState (fs : FS) (db : DB) (conn : Bool) : RunState :=
  ⟨fs, db, conn, ⟨0, 0, 0⟩, [], []⟩

/-- main() (lines 187-296): discovery, the early return on an empty
image list, the dry-run return, the database connection attempt (fatal
when updates were not skipped), the processing loop, and the summary. -/
def run (env : Env) (args : Args) (files : List (FsPath × Bytes)) (db0 : DB) : RunResult :=
  let imgs := find_image_files env files
  if imgs = [] then
    ⟨files, db0, ⟨0, 0, 0⟩, [], [], none⟩
  else if args.dryRun then
    ⟨files, db0, ⟨0, 0, 0⟩, [], [], none⟩
  else if args.skipDatabase = false ∧ env.dbConnects = false then
    ⟨files, db0, ⟨0, 0, 0⟩, [], [], none⟩
  else
    let fin := processFiles env args (initState files db0 (¬ args.skipDatabase)) imgs
    ⟨fin.fs, fin.db, fin.stats, fin.conversions, fin.trace,
     some (fin.stats.converted, fin.stats.failed, fin.stats.totalSaved)⟩

/-- Sum of (original size - new size) over a conversion ledger. -/
def sumSaved (l : List (FsPath × Nat × Nat)) : Int :=
  (l.map (fun t => (t.2.1 : Int) - (t.2.2 : Int))).sum

/-- An RGB pixel. -/
structure PixRGB where
  r : Nat
  g : Nat
  b : Nat
deriving DecidableEq, Repr

/-- An RGBA pixel. -/
structure PixRGBA where
  r : Nat
  g : Nat
  b : Nat
  a : Nat
deriving DecidableEq, Repr

/-- A grayscale pixel with alpha (PIL mode LA). -/
structure PixGA where
  g : Nat
  a : Nat
deriving DecidableEq, Repr

/-- An in-memory PIL image as produced by Image.open, classified by
mode: RGB, single-channel grayscale L, RGBA, grayscale-with-alpha LA,
or any other decoder mode (P, CMYK, YCbCr, ...), carried with the RGB
rendering that img.convert would produce for it. -/
inductive PILImage where
  | rgb (px : List PixRGB)
  | l (px : List Nat)
  | rgba (px : List PixRGBA)
  | la (px : List PixGA)
  | other (px : List PixRGB)
deriving DecidableEq, Repr

/-- The mode string of an image. -/
def PILImage.mode : PILImage → String
  | .rgb _ => "RGB"
  | .l _ => "L"
  | .rgba _ => "RGBA"
  | .la _ => "LA"
  | .other _ => "OTHER"

/-- PIL's MULDIV255 rounding primitive: approximately a * b / 255. -/
def muldiv255 (a b : Nat) : Nat :=
  let t := a * b + 128
  (t / 256 + t) / 256

/-- PIL's BLEND of a background value and a source value under an 8-bit
mask, as used by Image.paste with an alpha mask. -/
def blend (mask bgv srcv : Nat) : Nat :=
  muldiv255 bgv (255 - mask) + muldiv255 srcv mask

/-- The color-mode normalization of convert_to_webp (lines 79-90): an
RGBA image is pasted onto a white RGB background using its own alpha
channel as the mask; an LA image is pasted onto a white RGB background
WITHOUT a mask (the paste converts LA to RGB, dropping alpha, and fully
covers the background); RGB and L pass through; every other mode goes
through img.convert to RGB. -/
def normalizeColorMode : PILImage → PILImage
  | .rgba px => .rgb (px.map (fun q =>
      ⟨blend q.a 255 q.r, blend q.a 255 q.g, blend q.a 255 q.b⟩))
  | .la px => .rgb (px.map (fun q => ⟨q.g, q.g, q.g⟩))
  | .rgb px => .rgb px
  | .l px => .l px
  | .other px => .rgb px

/-- Modelled from the spec: the normalization the spec describes, in
which EVERY image with an alpha channel (RGBA and LA alike) is
composited over an opaque white background. -/
def specNormalizeColor : PILImage → PILImage
  | .rgba px => .rgb (px.map (fun q =>
      ⟨blend q.a 255 q.r, blend q.a 255 q.g, blend q.a 255 q.b⟩))
  | .la px => .rgb (px.map (fun q =>
      ⟨blend q.a 255 q.g, blend q.a 255 q.g, blend q.a 255 q.g⟩))
  | .rgb px => .rgb px
  | .l px => .l px
  | .other px => .rgb px

theorem fsGet_set_self (fs : FS) (p : FsPath) (b : Bytes) :
    fsGet (fsSet fs p b) p = some b := by
  induction fs with
  | nil => simp [fsSet, fsGet]
  | cons hd tl ih =>
    by_cases h : hd.1 = p
    · simp [fsSet, fsGet, h]
    · simp [fsSet, fsGet, h, ih]

theorem fsGet_set_ne (fs : FS) (p q : FsPath) (b : Bytes) (h : q ≠ p) :
    fsGet (fsSet fs p b) q = fsGet fs q := by
  have h' : ¬ p = q := fun hh => h hh.symm
  induction fs with
  | nil => simp [fsSet, fsGet, h']
  | cons hd tl ih =>
    obtain ⟨a, c⟩ := hd
    by_cases h1 : a = p
    · simp [fsSet, fsGet, h1, h']
    · simp [fsSet, fsGet, h1, ih]

/-- C1 failing input: an extensionless file under the data root whose
content is already WebP (so Image.open accepts it and discovery keeps
it), while the skip test of main() looks only at the path suffix. -/
def c1Path : FsPath := ⟨HOMEBOX_DATA_PATH, "9f3c"⟩

/-- The pre-run bytes of the C1 asset (already WebP-encoded content). -/
def c1Bytes : Bytes := [1, 2, 3]

/-- C1 environment: the decoder accepts the content (it is a valid WebP
image) and re-encoding it succeeds, producing different bytes. -/
def c1Env : Env :=
  { sniff := fun _ => true, convert := fun _ _ => some [9],
    swapFails := fun _ => false, dbConnects := true, dbFails := fun _ => false }

/-- C1 arguments: defaults, database updates requested. -/
def c1Args : Args :=
  { dryRun := false, backupDir := ["backups"], quality := 85,
    skipDatabase := false, dataPath := none }

/-- C1 directory listing: the single extensionless WebP asset. -/
def c1Files : List (FsPath × Bytes) := [(c1Path, c1Bytes)]

/-- C1 attachments table: the asset's row, already marked image/webp. -/
def c1Db : DB := [("data/9f3c", "image/webp")]

/-- C1: the claim says an Asset already in the target encoding performs
zero filesystem mutation and zero store update, transitioning directly
from Discovered to Skipped, including extensionless files whose content
is already WebP.  The code decides the skip by the path suffix alone
(line 245), so this extensionless already-WebP asset is discovered,
backed up, re-encoded, swapped, and a store UPDATE is issued: the run
mutates both the filesystem and the store. -/
theorem c1_extensionless_webp_reprocessed :
    find_image_files c1Env c1Files = [c1Path] ∧
    (run c1Env c1Args c1Files c1Db).trace =
      [.backup c1Path (backupPathOf ["backups"] c1Path),
       .convertOk c1Path (FsPath.withSuffix c1Path ".webp.tmp"),
       .swap (FsPath.withSuffix c1Path ".webp.tmp") c1Path,
       .dbExec "data/9f3c" "image/webp", .dbCommit,
       .countConverted c1Path] ∧
    fsGet (run c1Env c1Args c1Files c1Db).fs c1Path = some [9] ∧
    fsGet (run c1Env c1Args c1Files c1Db).fs (backupPathOf ["backups"] c1Path) = some c1Bytes ∧
    (run c1Env c1Args c1Files c1Db).stats.converted = 1 := by
  decide

/-- C2 asset path: a plain jpg. -/
def c2Path : FsPath := ⟨["data"], "img.jpg"⟩

/-- C2 environment: encoding succeeds but the swap move into the
original path raises. -/
def c2Env : Env :=
  { sniff := fun _ => false, convert := fun _ _ => some [7, 7],
    swapFails := fun p => decide (p = c2Path), dbConnects := true, dbFails := fun _ => false }

/-- C2 arguments: database updates skipped. -/
def c2Args : Args :=
  { dryRun := false, backupDir := ["backups"], quality := 85,
    skipDatabase := true, dataPath := none }

/-- C2 directory listing. -/
def c2Files : List (FsPath × Bytes) := [(c2Path, [5, 5, 5, 5, 5])]

/-- C2 counterexample: on a swap failure after a successful encode the
per-file exception handler (lines 281-283) only increments failed_count;
no restore action ever appears in the trace, contrary to the claim that
restore-from-backup is triggered. -/
theorem c2_counterexample :
    c2Env.swapFails c2Path = true ∧
    (run c2Env c2Args c2Files []).trace =
      [.backup c2Path (backupPathOf ["backups"] c2Path),
       .convertOk c2Path (FsPath.withSuffix c2Path ".webp.tmp"),
       .countFailed c2Path] ∧
    ((run c2Env c2Args c2Files []).trace.all (fun a => ! a.isRestore)) = true ∧
    (run c2Env c2Args c2Files []).stats.failed = 1 := by
  decide

/-- C2 amended: for every Asset where the swap fails after a successful
encode, the Asset is counted as failed and the store is not updated; the
original path still holds its pre-run bytes only because the failed move
left it alone, and no restore-from-backup is invoked (the handler merely
logs), leaving the backup and the scratch file behind. -/
theorem c2_swap_failure_no_restore
    (env : Env) (args : Args) (st : RunState) (p : FsPath) (ob wb : Bytes)
    (hw : ¬ lowerStr (pySuffix p.base) = ".webp")
    (hg : fsGet st.fs p = some ob)
    (hb : ¬ backupPathOf args.backupDir p = p)
    (ht : ¬ FsPath.withSuffix p ".webp.tmp" = p)
    (hc : env.convert ob args.quality = some wb)
    (hs : env.swapFails p = true) :
    (processFile env args st p).stats.failed = st.stats.failed + 1 ∧
    (processFile env args st p).stats.converted = st.stats.converted ∧
    fsGet (processFile env args st p).fs p = some ob ∧
    (processFile env args st p).db = st.db ∧
    (processFile env args st p).trace =
      st.trace ++ [.backup p (backupPathOf args.backupDir p),
                   .convertOk p (FsPath.withSuffix p ".webp.tmp"),
                   .countFailed p] := by
  simp only [processFile, hw, hg, hb, hc, hs, if_false, ite_false, ite_true]
  rw [fsGet_set_ne _ _ _ _ (fun hh => ht hh.symm),
      fsGet_set_ne _ _ _ _ (fun hh => hb hh.symm), hg]
  simp

/-- C2 witness: the amended statement at the concrete swap-failure run. -/
theorem c2_swap_failure_no_restore_witness :
    (processFile c2Env c2Args (initState c2Files [] false) c2Path).stats.failed =
      (initState c2Files [] false).stats.failed + 1 ∧
    (processFile c2Env c2Args (initState c2Files [] false) c2Path).stats.converted =
      (initState c2Files [] false).stats.converted ∧
    fsGet (processFile c2Env c2Args (initState c2Files [] false) c2Path).fs c2Path =
      some [5, 5, 5, 5, 5] ∧
    (processFile c2Env c2Args (initState c2Files [] false) c2Path).db =
      (initState c2Files [] false).db ∧
    (processFile c2Env c2Args (initState c2Files [] false) c2Path).trace =
      (initState c2Files [] false).trace ++
        [.backup c2Path (backupPathOf c2Args.backupDir c2Path),
         .convertOk c2Path (FsPath.withSuffix c2Path ".webp.tmp"),
         .countFailed c2Path] :=
  c2_swap_failure_no_restore c2Env c2Args (initState c2Files [] false) c2Path
    [5, 5, 5, 5, 5] [7, 7]
    (by decide) (by decide) (by decide) (by decide) (by decide) (by decide)

/-- C3 failing input: a jpg under the overridden data root. -/
def c3Path : FsPath := ⟨["custom"], "img.jpg"⟩

/-- C3 environment: everything succeeds; the database is reachable. -/
def c3Env : Env :=
  { sniff := fun _ => false, convert := fun _ _ => some [1],
    swapFails := fun _ => false, dbConnects := true, dbFails := fun _ => false }

/-- C3 arguments: a --data-path override pointing outside the
module-level constant root; database updates requested. -/
def c3Args : Args :=
  { dryRun := false, backupDir := ["backups"], quality := 85,
    skipDatabase := false, dataPath := some ["custom"] }

/-- C3 directory listing under the overridden root. -/
def c3Files : List (FsPath × Bytes) := [(c3Path, [1, 2, 3, 4])]

/-- C3 attachments table: the row the claim expects to be updated. -/
def c3Db : DB := [("data/img.jpg", "image/jpeg")]

/-- C3: the claim says the store key is the namespace plus the path
relative to the CONFIGURED data root, including under --data-path.  The
key derivable from the configured root is data/img.jpg, but the code
derives keys with relative_to against the module constant
HOMEBOX_DATA_PATH (line 120), which fails for a path under the override
root: the update raises ValueError, rolls back, no UPDATE is executed,
the row keeps its old MIME type, and the file is still counted as
converted. -/
theorem c3_key_uses_hardcoded_root :
    dbKeyOf (effectiveDataRoot c3Args) c3Path = some "data/img.jpg" ∧
    dbKeyOf HOMEBOX_DATA_PATH c3Path = none ∧
    (run c3Env c3Args c3Files c3Db).db = c3Db ∧
    (run c3Env c3Args c3Files c3Db).trace =
      [.backup c3Path (backupPathOf ["backups"] c3Path),
       .convertOk c3Path (FsPath.withSuffix c3Path ".webp.tmp"),
       .swap (FsPath.withSuffix c3Path ".webp.tmp") c3Path,
       .dbRollback,
       .countConverted c3Path] ∧
    ((run c3Env c3Args c3Files c3Db).trace.all (fun a => ! a.isDbExec)) = true ∧
    (run c3Env c3Args c3Files c3Db).stats.converted = 1 := by
  decide

/-- C4: for every Asset where the Codec fails, converted_count is
unchanged and failed_count grows by one for that Asset, the bytes at the
original path after processing equal the pre-run bytes (the backup copy
is moved back over the original, which the failed conversion never
touched), the store is untouched, and the per-file trace contains no
UPDATE action. -/
theorem c4_codec_failure_keeps_bytes
    (env : Env) (args : Args) (st : RunState) (p : FsPath) (ob : Bytes)
    (hw : ¬ lowerStr (pySuffix p.base) = ".webp")
    (hg : fsGet st.fs p = some ob)
    (hb : ¬ backupPathOf args.backupDir p = p)
    (hc : env.convert ob args.quality = none) :
    (processFile env args st p).stats.converted = st.stats.converted ∧
    (processFile env args st p).stats.failed = st.stats.failed + 1 ∧
    fsGet (processFile env args st p).fs p = some ob ∧
    (processFile env args st p).db = st.db ∧
    (processFile env args st p).trace =
      st.trace ++ [.backup p (backupPathOf args.backupDir p),
                   .convertFail p (FsPath.withSuffix p ".webp.tmp"),
                   .countFailed p, .restore (backupPathOf args.backupDir p) p] := by
  simp only [processFile, hw, hg, hb, hc, if_false, ite_false, ite_true]
  rw [fsGet_set_self]
  simp

/-- C4 asset path. -/
def c4Path : FsPath := ⟨["data"], "b.jpg"⟩

/-- C4 environment: decoding/encoding raises inside convert_to_webp. -/
def c4Env : Env :=
  { sniff := fun _ => false, convert := fun _ _ => none,
    swapFails := fun _ => false, dbConnects := true, dbFails := fun _ => false }

/-- C4 arguments: database updates requested. -/
def c4Args : Args :=
  { dryRun := false, backupDir := ["backups"], quality := 85,
    skipDatabase := false, dataPath := none }

/-- C4 initial loop state: one jpg on disk, its row in the store, a
live connection. -/
def c4St : RunState := initState [(c4Path, [3, 3])] [("data/b.jpg", "image/jpeg")] true

/-- C4 witness: the theorem at the concrete codec-failure input. -/
theorem c4_codec_failure_keeps_bytes_witness :
    (processFile c4Env c4Args c4St c4Path).stats.converted = c4St.stats.converted ∧
    (processFile c4Env c4Args c4St c4Path).stats.failed = c4St.stats.failed + 1 ∧
    fsGet (processFile c4Env c4Args c4St c4Path).fs c4Path = some [3, 3] ∧
    (processFile c4Env c4Args c4St c4Path).db = c4St.db ∧
    (processFile c4Env c4Args c4St c4Path).trace =
      c4St.trace ++ [.backup c4Path (backupPathOf c4Args.backupDir c4Path),
                     .convertFail c4Path (FsPath.withSuffix c4Path ".webp.tmp"),
                     .countFailed c4Path, .restore (backupPathOf c4Args.backupDir c4Path) c4Path] :=
  c4_codec_failure_keeps_bytes c4Env c4Args c4St c4Path [3, 3]
    (by decide) (by decide) (by decide) (by decide)

/-- C5: after a successful swap with a live connection and updates not
skipped, the metadata update runs and its actions appear in the trace
strictly before the countConverted action, and the Asset is counted as
converted whatever the update returned; update_database_mime_type
commits the UPDATE on success (returning whether any row matched, with
zero rows reported as False, a non-fatal warning), and on any error
(underivable key or execution failure) rolls back, leaving the store
unchanged. -/
theorem c5_metadata_update_semantics
    (env : Env) (args : Args) (st : RunState) (p : FsPath) (ob wb : Bytes)
    (hw : ¬ lowerStr (pySuffix p.base) = ".webp")
    (hg : fsGet st.fs p = some ob)
    (hb : ¬ backupPathOf args.backupDir p = p)
    (hc : env.convert ob args.quality = some wb)
    (hs : env.swapFails p = false)
    (hconn : st.conn = true)
    (hskip : args.skipDatabase = false) :
    (processFile env args st p).stats.converted = st.stats.converted + 1 ∧
    (processFile env args st p).db =
      (update_database_mime_type env HOMEBOX_DATA_PATH st.db p TARGET_MIME).1 ∧
    (processFile env args st p).trace =
      st.trace ++ [.backup p (backupPathOf args.backupDir p),
                   .convertOk p (FsPath.withSuffix p ".webp.tmp"),
                   .swap (FsPath.withSuffix p ".webp.tmp") p]
        ++ (update_database_mime_type env HOMEBOX_DATA_PATH st.db p TARGET_MIME).2.2
        ++ [.countConverted p] ∧
    (∀ key, dbKeyOf HOMEBOX_DATA_PATH p = some key → env.dbFails key = false →
      (update_database_mime_type env HOMEBOX_DATA_PATH st.db p TARGET_MIME).1 =
        setMime st.db key TARGET_MIME ∧
      (update_database_mime_type env HOMEBOX_DATA_PATH st.db p TARGET_MIME).2.2 =
        [.dbExec key TARGET_MIME, .dbCommit] ∧
      ((update_database_mime_type env HOMEBOX_DATA_PATH st.db p TARGET_MIME).2.1 = true ↔
        0 < countKey st.db key)) ∧
    ((dbKeyOf HOMEBOX_DATA_PATH p = none ∨
        (∃ key, dbKeyOf HOMEBOX_DATA_PATH p = some key ∧ env.dbFails key = true)) →
      (update_database_mime_type env HOMEBOX_DATA_PATH st.db p TARGET_MIME).1 = st.db ∧
      (update_database_mime_type env HOMEBOX_DATA_PATH st.db p TARGET_MIME).2.2 =
        [.dbRollback]) := by
  refine ⟨?_, ?_, ?_, ?_, ?_⟩
  · simp only [processFile, hw, hg, hb, hc, hs, hconn, hskip, if_false, ite_false, ite_true]
    simp
  · simp only [processFile, hw, hg, hb, hc, hs, hconn, hskip, if_false, ite_false, ite_true]
    simp
  · simp only [processFile, hw, hg, hb, hc, hs, hconn, hskip, if_false, ite_false, ite_true]
    simp
  · intro key hk hf
    simp only [update_database_mime_type, hk, hf, ite_false]
    exact ⟨rfl, rfl, by simp⟩
  · rintro (hk | ⟨key, hk, hf⟩)
    · simp [update_database_mime_type, hk]
    · simp [update_database_mime_type, hk, hf]

/-- C5 asset path. -/
def c5Path : FsPath := ⟨HOMEBOX_DATA_PATH, "c.png"⟩

/-- C5 environment: conversion and swap succeed, the store works. -/
def c5Env : Env :=
  { sniff := fun _ => false, convert := fun _ _ => some [4],
    swapFails := fun _ => false, dbConnects := true, dbFails := fun _ => false }

/-- C5 arguments: database updates requested. -/
def c5Args : Args :=
  { dryRun := false, backupDir := ["backups"], quality := 85,
    skipDatabase := false, dataPath := none }

/-- C5 initial loop state: one png under the data root, its row present. -/
def c5St : RunState := initState [(c5Path, [8, 8, 8])] [("data/c.png", "image/png")] true

/-- C5 witness: the theorem at a concrete successful conversion. -/
theorem c5_metadata_update_semantics_witness :
    (processFile c5Env c5Args c5St c5Path).stats.converted = c5St.stats.converted + 1 ∧
    (processFile c5Env c5Args c5St c5Path).db =
      (update_database_mime_type c5Env HOMEBOX_DATA_PATH c5St.db c5Path TARGET_MIME).1 ∧
    (processFile c5Env c5Args c5St c5Path).trace =
      c5St.trace ++ [.backup c5Path (backupPathOf c5Args.backupDir c5Path),
                     .convertOk c5Path (FsPath.withSuffix c5Path ".webp.tmp"),
                     .swap (FsPath.withSuffix c5Path ".webp.tmp") c5Path]
        ++ (update_database_mime_type c5Env HOMEBOX_DATA_PATH c5St.db c5Path TARGET_MIME).2.2
        ++ [.countConverted c5Path] ∧
    (∀ key, dbKeyOf HOMEBOX_DATA_PATH c5Path = some key → c5Env.dbFails key = false →
      (update_database_mime_type c5Env HOMEBOX_DATA_PATH c5St.db c5Path TARGET_MIME).1 =
        setMime c5St.db key TARGET_MIME ∧
      (update_database_mime_type c5Env HOMEBOX_DATA_PATH c5St.db c5Path TARGET_MIME).2.2 =
        [.dbExec key TARGET_MIME, .dbCommit] ∧
      ((update_database_mime_type c5Env HOMEBOX_DATA_PATH c5St.db c5Path TARGET_MIME).2.1 = true ↔
        0 < countKey c5St.db key)) ∧
    ((dbKeyOf HOMEBOX_DATA_PATH c5Path = none ∨
        (∃ key, dbKeyOf HOMEBOX_DATA_PATH c5Path = some key ∧ c5Env.dbFails key = true)) →
      (update_database_mime_type c5Env HOMEBOX_DATA_PATH c5St.db c5Path TARGET_MIME).1 = c5St.db ∧
      (update_database_mime_type c5Env HOMEBOX_DATA_PATH c5St.db c5Path TARGET_MIME).2.2 =
        [.dbRollback]) :=
  c5_metadata_update_semantics c5Env c5Args c5St c5Path [8, 8, 8] [4]
    (by decide) (by decide) (by decide) (by decide) (by decide) (by decide) (by decide)

/-- C6: the claim says normalization yields RGB or single-channel L, and
whenever the source has an alpha channel the result is composited over
an opaque white background.  The mode part holds for every image.  But
for mode LA the code pastes WITHOUT the alpha mask (line 87), so the
alpha channel is dropped, not composited: a fully transparent black LA
pixel comes out black, where compositing over white yields white. -/
theorem c6_la_alpha_dropped :
    (∀ img : PILImage,
      (normalizeColorMode img).mode = "RGB" ∨ (normalizeColorMode img).mode = "L") ∧
    normalizeColorMode (.la [⟨0, 0⟩]) = .rgb [⟨0, 0, 0⟩] ∧
    specNormalizeColor (.la [⟨0, 0⟩]) = .rgb [⟨255, 255, 255⟩] ∧
    normalizeColorMode (.la [⟨0, 0⟩]) ≠ specNormalizeColor (.la [⟨0, 0⟩]) := by
  refine ⟨?_, by decide, by decide, by decide⟩
  intro img
  cases img <;> simp [normalizeColorMode, PILImage.mode]

/-- C7 skipped asset: a file with the .webp suffix fed to the loop. -/
def c7WebpPath : FsPath := ⟨["data"], "old.webp"⟩

/-- C7 converted asset: a plain jpg. -/
def c7JpgPath : FsPath := ⟨["data"], "a.jpg"⟩

/-- C7 environment: conversion succeeds. -/
def c7Env : Env :=
  { sniff := fun _ => false, convert := fun _ _ => some [9],
    swapFails := fun _ => false, dbConnects := true, dbFails := fun _ => false }

/-- C7 arguments: database updates skipped. -/
def c7Args : Args :=
  { dryRun := false, backupDir := ["backups"], quality := 85,
    skipDatabase := true, dataPath := none }

/-- C7 initial loop state with both assets on disk. -/
def c7St : RunState := initState [(c7WebpPath, [1]), (c7JpgPath, [1, 2, 3])] [] false

/-- C7 counterexample: the loop state after processing a list containing
a skipped .webp asset is IDENTICAL to the state after processing the
list without it: the statistics carry converted, failed and bytes saved
but no skipped count, so no component of the run statistics reflects
the skipped Asset, contrary to the claim that the statistics comprise a
skipped count. -/
theorem c7_counterexample :
    lowerStr (pySuffix c7WebpPath.base) = ".webp" ∧
    processFiles c7Env c7Args c7St [c7WebpPath, c7JpgPath] =
      processFiles c7Env c7Args c7St [c7JpgPath] ∧
    (processFiles c7Env c7Args c7St [c7WebpPath, c7JpgPath]).stats =
      (processFiles c7Env c7Args c7St [c7JpgPath]).stats := by
  decide

/-- C7 amended: the run statistics comprise counts of converted and
failed Assets plus cumulative bytes saved (no skipped count is kept),
and whenever the processing loop is reached (images found, not a dry
run, and either updates skipped or the connection succeeded) the final
summary reports exactly those statistics, failures included. -/
theorem c7_summary_reports_counts
    (env : Env) (args : Args) (files : List (FsPath × Bytes)) (db0 : DB)
    (h1 : ¬ find_image_files env files = [])
    (h2 : args.dryRun = false)
    (h3 : args.skipDatabase = true ∨ env.dbConnects = true) :
    (run env args files db0).summary =
      some ((run env args files db0).stats.converted,
            (run env args files db0).stats.failed,
            (run env args files db0).stats.totalSaved) := by
  have h3' : ¬ (args.skipDatabase = false ∧ env.dbConnects = false) := by
    rcases h3 with h | h <;> simp [h]
  simp [run, h1, h2, h3']

/-- C7 witness environment: the codec fails, so the run has a failure. -/
def c7FailEnv : Env :=
  { sniff := fun _ => false, convert := fun _ _ => none,
    swapFails := fun _ => false, dbConnects := true, dbFails := fun _ => false }

/-- C7 witness: the amended statement on a run with one failed Asset. -/
theorem c7_summary_reports_counts_witness :
    (run c7FailEnv c7Args [(c7JpgPath, [1, 2, 3])] []).summary =
      some ((run c7FailEnv c7Args [(c7JpgPath, [1, 2, 3])] []).stats.converted,
            (run c7FailEnv c7Args [(c7JpgPath, [1, 2, 3])] []).stats.failed,
            (run c7FailEnv c7Args [(c7JpgPath, [1, 2, 3])] []).stats.totalSaved) :=
  c7_summary_reports_counts c7FailEnv c7Args [(c7JpgPath, [1, 2, 3])] []
    (by decide) (by decide) (Or.inl (by decide))

/-- C8: when metadata synchronization is requested (updates not
explicitly skipped) and the store connection cannot be established,
main() returns before the processing loop: the trace is empty (no
backup, conversion, swap, restore or store action for any Asset), the
filesystem and the store are untouched, the statistics are zero and no
summary is produced. -/
theorem c8_connection_failure_aborts
    (env : Env) (args : Args) (files : List (FsPath × Bytes)) (db0 : DB)
    (h1 : args.skipDatabase = false)
    (h2 : env.dbConnects = false) :
    (run env args files db0).trace = [] ∧
    (run env args files db0).fs = files ∧
    (run env args files db0).db = db0 ∧
    (run env args files db0).stats = ⟨0, 0, 0⟩ ∧
    (run env args files db0).summary = none := by
  unfold run
  by_cases hi : find_image_files env files = []
  · simp [hi]
  · by_cases hd : args.dryRun = true
    · simp [hi, hd]
    · simp [hi, hd, h1, h2]

/-- C8 witness environment: images exist but the connection fails. -/
def c8Env : Env :=
  { sniff := fun _ => false, convert := fun _ _ => some [2],
    swapFails := fun _ => false, dbConnects := false, dbFails := fun _ => false }

/-- C8 witness arguments: metadata sync requested, no dry run. -/
def c8Args : Args :=
  { dryRun := false, backupDir := ["backups"], quality := 85,
    skipDatabase := false, dataPath := none }

/-- C8 witness directory listing: a convertible jpg is present. -/
def c8Files : List (FsPath × Bytes) := [(⟨["data"], "x.jpg"⟩, [4, 4])]

/-- C8 witness: the theorem at the concrete connection-failure run. -/
theorem c8_connection_failure_aborts_witness :
    (run c8Env c8Args c8Files []).trace = [] ∧
    (run c8Env c8Args c8Files []).fs = c8Files ∧
    (run c8Env c8Args c8Files []).db = [] ∧
    (run c8Env c8Args c8Files []).stats = ⟨0, 0, 0⟩ ∧
    (run c8Env c8Args c8Files []).summary = none :=
  c8_connection_failure_aborts c8Env c8Args c8Files [] (by decide) (by decide)

/-- C9: create_backup keys the copy by base name only, so two distinct
Assets with equal base names in different directories get the SAME
backup path; backing up the second overwrites the first Asset's
preserved bytes, and the backup slot then no longer holds the first
Asset's original content. -/
theorem c9_backup_basename_collision
    (dir : List String) (fs : FS) (p q : FsPath) (bp bq : Bytes)
    (hbase : p.base = q.base)
    (hqd : ¬ q.dir = dir)
    (hgp : fsGet fs p = some bp)
    (hgq : fsGet fs q = some bq)
    (hne : ¬ bp = bq) :
    (create_backup fs dir p).2 = (create_backup (create_backup fs dir p).1 dir q).2 ∧
    fsGet (create_backup (create_backup fs dir p).1 dir q).1 (create_backup fs dir p).2 =
      some bq ∧
    ¬ fsGet (create_backup (create_backup fs dir p).1 dir q).1 (create_backup fs dir p).2 =
      some bp := by
  have hb1 : backupPathOf dir p = backupPathOf dir q := by
    simp [backupPathOf, hbase]
  have hq1 : ¬ q = backupPathOf dir p := by
    intro h
    exact hqd (congrArg FsPath.dir h)
  have hgq1 : fsGet (fsSet fs (backupPathOf dir p) bp) q = some bq := by
    rw [fsGet_set_ne _ _ _ _ hq1, hgq]
  simp only [create_backup, hgp, hgq1]
  refine ⟨hb1, ?_, ?_⟩
  · rw [hb1, fsGet_set_self]
  · rw [hb1, fsGet_set_self]
    exact fun h => hne (Option.some.inj h).symm

/-- C9 witness: two jpgs named x.jpg in different directories. -/
theorem c9_backup_basename_collision_witness :
    (create_backup [(⟨["a"], "x.jpg"⟩, [1]), (⟨["b"], "x.jpg"⟩, [2])] ["backups"] ⟨["a"], "x.jpg"⟩).2 =
      (create_backup
        (create_backup [(⟨["a"], "x.jpg"⟩, [1]), (⟨["b"], "x.jpg"⟩, [2])] ["backups"] ⟨["a"], "x.jpg"⟩).1
        ["backups"] ⟨["b"], "x.jpg"⟩).2 ∧
    fsGet
      (create_backup
        (create_backup [(⟨["a"], "x.jpg"⟩, [1]), (⟨["b"], "x.jpg"⟩, [2])] ["backups"] ⟨["a"], "x.jpg"⟩).1
        ["backups"] ⟨["b"], "x.jpg"⟩).1
      (create_backup [(⟨["a"], "x.jpg"⟩, [1]), (⟨["b"], "x.jpg"⟩, [2])] ["backups"] ⟨["a"], "x.jpg"⟩).2 =
      some [2] ∧
    ¬ fsGet
      (create_backup
        (create_backup [(⟨["a"], "x.jpg"⟩, [1]), (⟨["b"], "x.jpg"⟩, [2])] ["backups"] ⟨["a"], "x.jpg"⟩).1
        ["backups"] ⟨["b"], "x.jpg"⟩).1
      (create_backup [(⟨["a"], "x.jpg"⟩, [1]), (⟨["b"], "x.jpg"⟩, [2])] ["backups"] ⟨["a"], "x.jpg"⟩).2 =
      some [1] :=
  c9_backup_basename_collision ["backups"] [(⟨["a"], "x.jpg"⟩, [1]), (⟨["b"], "x.jpg"⟩, [2])]
    ⟨["a"], "x.jpg"⟩ ⟨["b"], "x.jpg"⟩ [1] [2]
    (by decide) (by decide) (by decide) (by decide) (by decide)

theorem sumSaved_append (l : List (FsPath × Nat × Nat)) (x : FsPath × Nat × Nat) :
    sumSaved (l ++ [x]) = sumSaved l + ((x.2.1 : Int) - (x.2.2 : Int)) := by
  simp [sumSaved]

theorem processFile_saved_inv (env : Env) (args : Args) (st : RunState) (p : FsPath)
    (h : st.stats.totalSaved = sumSaved st.conversions) :
    (processFile env args st p).stats.totalSaved =
      sumSaved (processFile env args st p).conversions := by
  simp only [processFile]
  split
  · exact h
  · split
    · exact h
    · split
      · exact h
      · split
        · split
          · exact h
          · simp [sumSaved_append, h]
        · exact h

theorem processFiles_saved_inv (env : Env) (args : Args) (ps : List FsPath) :
    ∀ st : RunState, st.stats.totalSaved = sumSaved st.conversions →
      (processFiles env args st ps).stats.totalSaved =
        sumSaved (processFiles env args st ps).conversions := by
  induction ps with
  | nil => intro st h; exact h
  | cons hd tl ih =>
    intro st h
    exact ih _ (processFile_saved_inv env args st hd h)

/-- C10 asset path. -/
def c10Path : FsPath := ⟨["data"], "big.png"⟩

/-- C10 environment: the encoded output (8 bytes) is larger than the
3-byte input, so the saving for this Asset is negative. -/
def c10Env : Env :=
  { sniff := fun _ => false, convert := fun _ _ => some [9, 9, 9, 9, 9, 9, 9, 9],
    swapFails := fun _ => false, dbConnects := true, dbFails := fun _ => false }

/-- C10 arguments: database updates skipped. -/
def c10Args : Args :=
  { dryRun := false, backupDir := ["backups"], quality := 85,
    skipDatabase := true, dataPath := none }

/-- C10 directory listing. -/
def c10Files : List (FsPath × Bytes) := [(c10Path, [1, 2, 3])]

/-- C10: on every run, total_saved equals the exact integer sum over the
converted Assets of (original size - converted size), as recorded in the
per-conversion ledger; and a converted Asset whose output is larger than
its input contributes a negative term, so the reported total can be
negative, as the concrete growing conversion shows. -/
theorem c10_total_saved_exact_sum :
    (∀ (env : Env) (args : Args) (files : List (FsPath × Bytes)) (db0 : DB),
      (run env args files db0).stats.totalSaved =
        sumSaved (run env args files db0).conversions) ∧
    (run c10Env c10Args c10Files []).conversions = [(c10Path, 3, 8)] ∧
    (run c10Env c10Args c10Files []).stats.totalSaved = -5 ∧
    (run c10Env c10Args c10Files []).stats.totalSaved < 0 := by
  refine ⟨?_, by decide, by decide, by decide⟩
  intro env args files db0
  by_cases h1 : find_image_files env files = []
  · simp [run, h1, sumSaved]
  · by_cases h2 : args.dryRun = true
    · simp [run, h1, h2, sumSaved]
    · by_cases h3 : args.skipDatabase = false ∧ env.dbConnects = false
      · simp [run, h1, h2, h3, sumSaved]
      · simp only [run, if_neg h1, if_neg h2, if_neg h3]
        exact processFiles_saved_inv env args _ _ (by simp [initState, sumSaved])
